import Mathlib

/-!
Verification of the pulsar-mcp MCP bridge against its specification.

The repository contains two snapshots of the bridge code:
* `lib/registry.js`, `lib/bridge.js`, `lib/tools.js`, `lib/server.js`, and
* an unnamed newer snapshot (`src/unnamed/part_001` = a bridge with JSON-RPC
  batching, `src/unnamed/part_002` = its tool definitions, `part_003` a copy
  of `lib/tools.js`, `part_000` logging + the package main).

JavaScript values are shallowly embedded as the inductive `Value`; thrown
exceptions as `Except String`; the editor host (the `atom` global), the
system clock and the `JSON.stringify` builtin are external collaborators and
are modelled as oracle fields of `AtomEnv` / `EditorState`.  Logging calls
(`log.debug` etc.) have no observable effect on any result and are omitted.
-/

set_option autoImplicit false

namespace PulsarMcp

/-- Shallow embedding of JavaScript/JSON values.  `vUndefined` is the value of
a missing object property; `vNum` models JS numbers as integers (the sources
only manipulate integral numbers; NaN/float behaviour is never exercised). -/
inductive Value where
  | vNull
  | vUndefined
  | vBool (b : Bool)
  | vNum (n : Int)
  | vStr (s : String)
  | vArr (elems : List Value)
  | vObj (fields : List (String × Value))

/-- JS strict equality `x === false`. -/
def isFalseV : Value → Bool
  | .vBool false => true
  | _ => false

/-- JS strict equality `x === null`. -/
def isNullV : Value → Bool
  | .vNull => true
  | _ => false

/-- JS strict equality `x === undefined`. -/
def isUndefinedV : Value → Bool
  | .vUndefined => true
  | _ => false

/-- JS truthiness (`if (x)`).  Objects and arrays are always truthy. -/
def truthy : Value → Bool
  | .vNull => false
  | .vUndefined => false
  | .vBool b => b
  | .vNum n => !(n == 0)
  | .vStr s => !(s == "")
  | .vArr _ => true
  | .vObj _ => true

/-- Property access `obj[key]` on a value that is neither `null` nor
`undefined`: a missing property (and any access on a non-object primitive)
yields `undefined`.  JS member access or destructuring on `null`/`undefined`
instead throws a TypeError; that throw is modelled explicitly by
`destructureThrow` at the sites where the source can meet a null operand
(the body destructure of `handleMcpRequest` and the params destructure of
`handleToolsCall`). -/
def getField : Value → String → Value
  | .vObj fields, key =>
      match fields.lookup key with
      | some v => v
      | none => .vUndefined
  | _, _ => .vUndefined

mutual

/-- JS `String(x)` / template-literal coercion, for the constructors that can
reach a coercion site in the sources (array coercion approximates
`Array.prototype.toString`). -/
def jsToString : Value → String
  | .vNull => "null"
  | .vUndefined => "undefined"
  | .vBool b => if b then "true" else "false"
  | .vNum n => toString n
  | .vStr s => s
  | .vArr elems => String.intercalate "," (jsToStringList elems)
  | .vObj _ => "[object Object]"

/-- Coerce each array element, for `jsToString`. -/
def jsToStringList : List Value → List String
  | [] => []
  | v :: rest => jsToString v :: jsToStringList rest

end

mutual

/-- Structural equality on embedded JS values.  Used where the sources
compare primitive values with `===` / `includes` (never exercised on object
references, where JS identity would differ from structural equality). -/
def valueBeq : Value → Value → Bool
  | .vNull, .vNull => true
  | .vUndefined, .vUndefined => true
  | .vBool a, .vBool b => a == b
  | .vNum a, .vNum b => a == b
  | .vStr a, .vStr b => a == b
  | .vArr a, .vArr b => valueListBeq a b
  | .vObj a, .vObj b => valueFieldsBeq a b
  | _, _ => false

/-- Elementwise `valueBeq` on arrays. -/
def valueListBeq : List Value → List Value → Bool
  | [], [] => true
  | a :: as_, b :: bs => valueBeq a b && valueListBeq as_ bs
  | _, _ => false

/-- Elementwise `valueBeq` on object field lists. -/
def valueFieldsBeq : List (String × Value) → List (String × Value) → Bool
  | [], [] => true
  | (k, a) :: as_, (l, b) :: bs => k == l && valueBeq a b && valueFieldsBeq as_ bs
  | _, _ => false

end

/-- The normalized tool-call result envelope `{success, data?, error?}`.
`data`/`error` are `Option` so that presence of the property is tracked. -/
structure Envelope where
  success : Bool
  data : Option Value
  error : Option String

/-- JSON-RPC success response (`jsonRpcResponse`, identical in both bridge
snapshots). -/
def jsonRpcResponse (id result : Value) : Value :=
  .vObj [("jsonrpc", .vStr "2.0"), ("id", id), ("result", result)]

/-- JSON-RPC error response (`jsonRpcError`).  The optional `data` parameter
of the source is never supplied at any call site and is omitted. -/
def jsonRpcError (id : Value) (code : Int) (message : String) : Value :=
  .vObj [("jsonrpc", .vStr "2.0"), ("id", id),
    ("error", .vObj [("code", .vNum code), ("message", .vStr message)])]

/-- The TypeError message for destructuring a property of a null/undefined
value (`const { prop } = rhs` in V8/Node).  Engine dependent; no
theorem depends on its exact text. -/
def destructureMsg (prop rhs kind : String) : String :=
  "Cannot destructure property '" ++ prop ++ "' of '" ++ rhs ++
    "' as it is " ++ kind ++ "."

/-- JS object destructuring `const { prop, ... } = v` throws a
TypeError exactly when `v` is `null` or `undefined`; for any other value
property access proceeds (absent properties read as `undefined`). -/
def destructureThrow (v : Value) (prop rhs : String) : Option String :=
  match v with
  | .vNull => some (destructureMsg prop rhs "null")
  | .vUndefined => some (destructureMsg prop rhs "undefined")
  | _ => none

end PulsarMcp

namespace PulsarMcp

/-! ## Port allocation (`findAvailablePort`, lib/bridge.js 449-479 and
src/unnamed/part_001 332-368; both snapshots have identical code).
`isPortAvailable` performs an actual bind probe against the operating
system, an external collaborator: it is modelled as the oracle `avail`. -/

/-- The loop body of `findAvailablePort`: `remaining` counts the attempts
left, `port` is the next candidate. -/
def findAvailablePortGo (avail : Nat → Bool) (startPort maxAttempts : Nat) :
    Nat → Nat → Except String Nat
  | 0, _ =>
      .error ("Could not find available port after " ++ toString maxAttempts ++
        " attempts starting from " ++ toString startPort)
  | remaining + 1, port =>
      if avail port then .ok port
      else findAvailablePortGo avail startPort maxAttempts remaining (port + 1)

/-- `findAvailablePort(startPort, host, maxAttempts)`.  The `host` argument
only feeds the bind probe and is folded into the oracle `avail`. -/
def findAvailablePort (avail : Nat → Bool) (startPort maxAttempts : Nat) :
    Except String Nat :=
  findAvailablePortGo avail startPort maxAttempts maxAttempts startPort

theorem findAvailablePortGo_ok (avail : Nat → Bool) (s m : Nat) :
    ∀ (n port j : Nat), j < n → avail (port + j) = true →
      (∀ k, k < j → avail (port + k) = false) →
      findAvailablePortGo avail s m n port = .ok (port + j) := by
  intro n
  induction n with
  | zero => intro port j hj; omega
  | succ n ih =>
      intro port j hj hav hmin
      by_cases h0 : j = 0
      · subst h0
        have htrue : avail port = true := by simpa using hav
        simp [findAvailablePortGo, htrue]
      · have hfalse : avail port = false := by
          have := hmin 0 (Nat.pos_of_ne_zero h0)
          simpa using this
        simp only [findAvailablePortGo, hfalse]
        have hrec := ih (port + 1) (j - 1)
          (by omega)
          (by have : port + 1 + (j - 1) = port + j := by omega
              rw [this]; exact hav)
          (by intro k hk
              have : port + 1 + k = port + (k + 1) := by omega
              rw [this]
              exact hmin (k + 1) (by omega))
        have harith : port + 1 + (j - 1) = port + j := by omega
        rw [harith] at hrec
        simpa using hrec

theorem findAvailablePortGo_exhaust (avail : Nat → Bool) (s m : Nat) :
    ∀ (n port : Nat), (∀ k, k < n → avail (port + k) = false) →
      findAvailablePortGo avail s m n port =
        .error ("Could not find available port after " ++ toString m ++
          " attempts starting from " ++ toString s) := by
  intro n
  induction n with
  | zero => intro port _; rfl
  | succ n ih =>
      intro port hall
      have hfalse : avail port = false := by simpa using hall 0 (by omega)
      simp only [findAvailablePortGo, hfalse]
      exact ih (port + 1) (fun k hk => by
        have : port + 1 + k = port + (k + 1) := by omega
        rw [this]; exact hall (k + 1) (by omega))

end PulsarMcp

namespace PulsarMcp

/-! ## The editor host (the `atom` global) — an external collaborator.

Concrete editor manipulation is out of the core per the spec; the editor is
modelled as oracle state.  `lineText`, `textInRange` and the various call
outcomes stand for the corresponding atom API calls. -/

/-- One entry of `editor.getSelections()` as observed by the tools. -/
structure SelectionState where
  text : String
  isEmpty : Bool
  startRow : Int
  startColumn : Int
  endRow : Int
  endColumn : Int

/-- A text editor as observed through the atom API calls the tools make. -/
structure EditorState where
  path : Option String
  content : String
  cursorRow : Int
  cursorColumn : Int
  grammarName : Option String
  modified : Bool
  lineCount : Int
  lastBufferRow : Int
  lineText : Int → String
  textInRange : Value → String
  saveOutcome : Except String Unit
  selections : List SelectionState

/-- The ambient editor host: workspace state plus the oracles for the
`atom.workspace.open` outcome, `Date.now()` and the `JSON.stringify`
builtin. -/
structure AtomEnv where
  activeEditor : Option EditorState
  editors : List EditorState
  projectPaths : List String
  openOutcome : Except String Unit
  now : Nat
  jsonStringify : Value → String

/-- `editor.getPath() || null`. -/
def pathOrNull (p : Option String) : Value :=
  match p with
  | some s => if s == "" then .vNull else .vStr s
  | none => .vNull

/-- `editor.getPath()` as a JS value (`undefined` when the editor is
untitled). -/
def pathValue (p : Option String) : Value :=
  match p with
  | some s => .vStr s
  | none => .vUndefined

/-- `editor.getGrammar()?.name || "Plain Text"`. -/
def grammarOr (g : Option String) : String :=
  match g with
  | some s => if s == "" then "Plain Text" else s
  | none => "Plain Text"

/-- The per-selection object built by `getSelections` (identical in both
snapshots). -/
def selectionValue (s : SelectionState) : Value :=
  .vObj [("text", .vStr s.text), ("isEmpty", .vBool s.isEmpty),
    ("range", .vObj [
      ("start", .vObj [("row", .vNum s.startRow), ("column", .vNum s.startColumn)]),
      ("end", .vObj [("row", .vNum s.endRow), ("column", .vNum s.endColumn)])])]

/-! ## lib/registry.js — validators, tool definitions, `executeFromRegistry` -/

/-- A declarative per-argument validation rule: `null` (here `none`) means
the argument is acceptable, a string is the failure message. -/
def Validator : Type := Value → String → Option String

namespace validators

/-- `validators.string` (registry.js 10-11). -/
def string : Validator := fun v name =>
  match v with
  | .vStr _ => none
  | _ => some (name ++ " is required")

/-- `validators.number` (registry.js 13-14). -/
def number : Validator := fun v name =>
  match v with
  | .vNum _ => none
  | _ => some (name ++ " is required")

/-- `validators.array` (registry.js 16-17). -/
def array : Validator := fun v name =>
  match v with
  | .vArr elems =>
      if elems.length > 0 then none else some (name ++ " array is required")
  | _ => some (name ++ " array is required")

/-- `validators.enum` (registry.js 19-20); `allowed.includes(value)` is
structural on the primitive values it is used with. -/
def enumOf (allowed : List Value) : Validator := fun v name =>
  if allowed.any (fun a => valueBeq a v) then none
  else some (name ++ " must be one of: " ++
    String.intercalate ", " (jsToStringList allowed))

/-- `validators.optional` (registry.js 22). -/
def optional : Validator := fun _ _ => none

end validators

/-- A registry entry as produced by `defineTool` (registry.js 32-34):
execution procedure, declared validation rules (in declaration order, as
`Object.entries` iterates them) and result formatter. -/
structure Tool where
  execute : Value → Except String Value
  validate : List (String × Validator)
  format : Value → Value → Value

/-- The validation loop of `executeFromRegistry` (registry.js 49-54): run
the declared rules in order, stop at the first truthy (non-empty) message. -/
def firstValidationError : List (String × Validator) → Value → Option String
  | [], _ => none
  | (argName, validator) :: rest, args =>
      match validator (getField args argName) argName with
      | some msg => if msg == "" then firstValidationError rest args else some msg
      | none => firstValidationError rest args

/-- `executeFromRegistry(registry, toolName, args)` (registry.js 42-64).
`success` on the non-throwing path is `result !== false && result !== null`;
note that this path carries `data` and no `error` even when `success` is
false. -/
def executeFromRegistry (registry : List (String × Tool)) (toolName : String)
    (args : Value) : Envelope :=
  match registry.lookup toolName with
  | none => ⟨false, none, some ("Unknown tool: " ++ toolName)⟩
  | some tool =>
      match firstValidationError tool.validate args with
      | some msg => ⟨false, none, some msg⟩
      | none =>
          match tool.execute args with
          | .error m => ⟨false, none, some m⟩
          | .ok result =>
              ⟨!(isFalseV result) && !(isNullV result),
                some (tool.format result args), none⟩

/-- An externally registered tool (an External Tool Map entry); metadata
fields may be absent (`vUndefined`). -/
structure ExtTool where
  name : String
  description : Value
  inputSchema : Value
  annotations : Value
  execute : Value → Except String Value

/-- The external-tool branch shared by both executors: `data = await
tool.execute(args)` wrapped in try/catch (`error.message || String(error)`
is modelled as the thrown message, non-empty in all sources). -/
def runExternalTool (t : ExtTool) (args : Value) : Envelope :=
  match t.execute args with
  | .ok data => ⟨true, some data, none⟩
  | .error m => ⟨false, none, some m⟩

end PulsarMcp

namespace PulsarMcp

/-! ## lib/bridge.js — tool implementations, registry and executor -/

namespace BridgeLib

/-- `toolImpls.getActiveEditor` (lib/bridge.js 41-53). -/
def getActiveEditorImpl (env : AtomEnv) : Except String Value :=
  match env.activeEditor with
  | none => .ok .vNull
  | some e => .ok (.vObj [
      ("path", pathOrNull e.path),
      ("content", .vStr e.content),
      ("cursorPosition", .vObj [("row", .vNum e.cursorRow),
        ("column", .vNum e.cursorColumn)]),
      ("grammar", .vStr (grammarOr e.grammarName)),
      ("modified", .vBool e.modified)])

/-- `toolImpls.insertText` (55-60): the text insertion itself is an editor
effect; only the returned boolean is observable here. -/
def insertTextImpl (env : AtomEnv) (_args : Value) : Except String Value :=
  match env.activeEditor with
  | none => .ok (.vBool false)
  | some _ => .ok (.vBool true)

/-- `toolImpls.openFile` (62-72): the `atom.workspace.open` outcome is the
oracle; the options object only feeds that call. -/
def openFileImpl (env : AtomEnv) (_args : Value) : Except String Value :=
  match env.openOutcome with
  | .error m => .error m
  | .ok _ => .ok (.vBool true)

/-- `toolImpls.getProjectPaths` (74-76). -/
def getProjectPathsImpl (env : AtomEnv) : Except String Value :=
  .ok (.vArr (env.projectPaths.map Value.vStr))

/-- `toolImpls.saveFile` (78-91). -/
def saveFileImpl (env : AtomEnv) (args : Value) : Except String Value :=
  let path := getField args "path"
  if truthy path then
    match env.editors.find? (fun e => valueBeq (pathValue e.path) path) with
    | none => .ok (.vBool false)
    | some e =>
        match e.saveOutcome with
        | .error m => .error m
        | .ok _ => .ok (.vBool true)
  else
    match env.activeEditor with
    | none => .ok (.vBool false)
    | some e =>
        match e.saveOutcome with
        | .error m => .error m
        | .ok _ => .ok (.vBool true)

/-- `toolImpls.getSelections` (93-108). -/
def getSelectionsImpl (env : AtomEnv) : Except String Value :=
  match env.activeEditor with
  | none => .ok .vNull
  | some e => .ok (.vArr (e.selections.map selectionValue))

/-- `toolImpls.closeFile` (110-129): `pane.destroyItem` is an editor effect;
a save is attempted first when `save && editor.isModified()`. -/
def closeFileImpl (env : AtomEnv) (args : Value) : Except String Value :=
  let path := getField args "path"
  let save := match getField args "save" with
    | .vUndefined => .vBool false
    | v => v
  let chosen : Option EditorState :=
    if truthy path then
      env.editors.find? (fun e => valueBeq (pathValue e.path) path)
    else env.activeEditor
  match chosen with
  | none => .ok (.vBool false)
  | some e =>
      if truthy save && e.modified then
        match e.saveOutcome with
        | .error m => .error m
        | .ok _ => .ok (.vBool true)
      else .ok (.vBool true)

/-- `toolImpls.addProjectPath` (131-135). -/
def addProjectPathImpl (_env : AtomEnv) (args : Value) : Except String Value :=
  let path := getField args "path"
  if !(truthy path) then .ok (.vBool false)
  else .ok (.vBool true)

/-- `toolRegistry.GetActiveEditor` (lib/bridge.js 143-146). -/
def GetActiveEditorTool (env : AtomEnv) : Tool :=
  ⟨fun _ => getActiveEditorImpl env, [], fun d _ => d⟩

/-- `toolRegistry.InsertText` (148-152). -/
def InsertTextTool (env : AtomEnv) : Tool :=
  ⟨insertTextImpl env, [("text", validators.string)],
    fun r _ => .vObj [("inserted", r)]⟩

/-- `toolRegistry.OpenFile` (154-158). -/
def OpenFileTool (env : AtomEnv) : Tool :=
  ⟨openFileImpl env, [("path", validators.string)],
    fun r _ => .vObj [("opened", r)]⟩

/-- `toolRegistry.GetProjectPaths` (160-163). -/
def GetProjectPathsTool (env : AtomEnv) : Tool :=
  ⟨fun _ => getProjectPathsImpl env, [], fun d _ => d⟩

/-- `toolRegistry.SaveFile` (165-168). -/
def SaveFileTool (env : AtomEnv) : Tool :=
  ⟨saveFileImpl env, [], fun r _ => .vObj [("saved", r)]⟩

/-- `toolRegistry.GetSelections` (170-173). -/
def GetSelectionsTool (env : AtomEnv) : Tool :=
  ⟨fun _ => getSelectionsImpl env, [], fun d _ => d⟩

/-- `toolRegistry.CloseFile` (175-178). -/
def CloseFileTool (env : AtomEnv) : Tool :=
  ⟨closeFileImpl env, [], fun r _ => .vObj [("closed", r)]⟩

/-- `toolRegistry.AddProjectPath` (180-184). -/
def AddProjectPathTool (env : AtomEnv) : Tool :=
  ⟨addProjectPathImpl env, [("path", validators.string)],
    fun r _ => .vObj [("added", r)]⟩

/-- `toolRegistry` (lib/bridge.js 142-185), in declaration order. -/
def toolRegistry (env : AtomEnv) : List (String × Tool) :=
  [("GetActiveEditor", GetActiveEditorTool env),
   ("InsertText", InsertTextTool env),
   ("OpenFile", OpenFileTool env),
   ("GetProjectPaths", GetProjectPathsTool env),
   ("SaveFile", SaveFileTool env),
   ("GetSelections", GetSelectionsTool env),
   ("CloseFile", CloseFileTool env),
   ("AddProjectPath", AddProjectPathTool env)]

/-- `executeTool` (lib/bridge.js 190-223): builtin registry membership is
checked first, then the external tool map, else the unknown-tool envelope.
Timing and logging have no effect on the returned envelope.  The
`toolRegistry[toolName]` check is modelled as own-property lookup: at an
`Object.prototype` property name the source would enter
`executeFromRegistry` and throw out of the route (`Object.entries` of
`undefined`), a lib-snapshot path outside every claim, whose hypotheses
pin the tool name to a registered entry. -/
def executeTool (env : AtomEnv) (exts : List (String × ExtTool))
    (toolName : String) (args : Value) : Envelope :=
  if ((toolRegistry env).lookup toolName).isSome then
    executeFromRegistry (toolRegistry env) toolName args
  else
    match exts.lookup toolName with
    | some t => runExternalTool t args
    | none => ⟨false, none, some ("Unknown tool: " ++ toolName)⟩

end BridgeLib

/-- `const { name, arguments: args = {} } = params` of `handleToolsCall`. -/
def argsOf (params : Value) : Value :=
  match getField params "arguments" with
  | .vUndefined => .vObj []
  | v => v

/-- The failure text `result.error || "Tool execution failed"`. -/
def errText : Option String → String
  | some m => if m == "" then "Tool execution failed" else m
  | none => "Tool execution failed"

/-- `handleToolsCall(id, params)` — identical source text in lib/bridge.js
343-373 and src/unnamed/part_001 199-229 — parameterized by the executor it
delegates to and the `JSON.stringify(data, null, 2)` oracle.  The entry
destructure `const { name, arguments: args = {} } = params`
throws when `params` is null (the default only covers `undefined`); the
throw escapes the handler as a rejected promise, modelled as `.error`. -/
def handleToolsCallWith (stringify : Value → String)
    (exec : String → Value → Envelope) (id params : Value) :
    Except String Value :=
  match destructureThrow params "name" "params" with
  | some m => .error m
  | none =>
      if !(truthy (getField params "name")) then
        .ok (jsonRpcError id (-32602) "Invalid params: missing tool name")
      else if (exec (jsToString (getField params "name")) (argsOf params)).success then
        .ok (jsonRpcResponse id (.vObj [
          ("content", .vArr [.vObj [("type", .vStr "text"),
            ("text", .vStr (stringify
              (match (exec (jsToString (getField params "name")) (argsOf params)).data with
                | some d => d
                | none => .vUndefined)))]]),
          ("isError", .vBool false)]))
      else
        .ok (jsonRpcResponse id (.vObj [
          ("content", .vArr [.vObj [("type", .vStr "text"),
            ("text", .vStr (errText
              (exec (jsToString (getField params "name")) (argsOf params)).error))]]),
          ("isError", .vBool true)]))

/-- `handleToolsCall` of lib/bridge.js (343-373), whose executor is
`BridgeLib.executeTool`. -/
def BridgeLib.handleToolsCall (env : AtomEnv) (exts : List (String × ExtTool))
    (id params : Value) : Except String Value :=
  handleToolsCallWith env.jsonStringify (BridgeLib.executeTool env exts) id params

end PulsarMcp

namespace PulsarMcp

/-! ## src/unnamed/part_002 — tool definitions of the newer snapshot -/

/-- The default / empty input schema literal
`{type: "object", properties: {}, required: []}`. -/
def emptyObjSchema : Value :=
  .vObj [("type", .vStr "object"), ("properties", .vObj []),
    ("required", .vArr [])]

/-- The position-object schema that part_002 repeats for every `start`/`end`
property, abstracted over its `description` text. -/
def positionSchema (desc : String) : Value :=
  .vObj [("type", .vStr "object"), ("description", .vStr desc),
    ("properties", .vObj [
      ("row", .vObj [("type", .vStr "number"),
        ("description", .vStr "Row (0-indexed)")]),
      ("column", .vObj [("type", .vStr "number"),
        ("description", .vStr "Column (0-indexed)")])]),
    ("required", .vArr [.vStr "row", .vStr "column"])]

/-- A builtin tool of part_002: metadata plus execution procedure. -/
structure BuiltinTool where
  name : String
  description : String
  inputSchema : Value
  annotations : Value
  execute : Value → Except String Value

/-- Public tool metadata (name, description, inputSchema, annotations).
`description`/`inputSchema`/`annotations` are JS values so that external
tools with missing fields can share the shape. -/
structure ToolMeta where
  name : String
  description : Value
  inputSchema : Value
  annotations : Value

/-- The own property names of `Object.prototype`: a property lookup on any
plain-object literal (such as the `tools` record or the tool registry)
finds these inherited members even though the literal does not declare
them. -/
def protoKeys : List String :=
  ["constructor", "__defineGetter__", "__defineSetter__", "hasOwnProperty",
   "__lookupGetter__", "__lookupSetter__", "isPrototypeOf",
   "propertyIsEnumerable", "toString", "valueOf", "__proto__",
   "toLocaleString"]

namespace ToolsV2

/-- `tools.GetActiveEditor` (part_002 11-35). -/
def GetActiveEditorDef (env : AtomEnv) : BuiltinTool where
  name := "GetActiveEditor"
  description := "Get active editor metadata. Returns \x7bpath, cursorPosition: \x7brow, column\x7d, grammar, modified, lineCount, charCount\x7d. Use ReadText to get content."
  inputSchema := emptyObjSchema
  annotations := .vObj [("readOnlyHint", .vBool true)]
  execute := fun _ =>
    match env.activeEditor with
    | none => .ok .vNull
    | some e => .ok (.vObj [
        ("path", pathOrNull e.path),
        ("cursorPosition", .vObj [("row", .vNum e.cursorRow),
          ("column", .vNum e.cursorColumn)]),
        ("grammar", .vStr (grammarOr e.grammarName)),
        ("modified", .vBool e.modified),
        ("lineCount", .vNum e.lineCount),
        ("charCount", .vNum e.content.length)])

/-- `tools.ReadText` (part_002 37-91). -/
def ReadTextDef (env : AtomEnv) : BuiltinTool where
  name := "ReadText"
  description := "Read buffer content from active editor (includes unsaved changes). Without start/end: returns full content. With start/end: returns text in that range."
  inputSchema := .vObj [("type", .vStr "object"),
    ("properties", .vObj [
      ("start", positionSchema "Start position (0-indexed). If omitted, reads from beginning."),
      ("end", positionSchema "End position (0-indexed). If omitted, reads to end of file.")]),
    ("required", .vArr [])]
  annotations := .vObj [("readOnlyHint", .vBool true)]
  execute := fun args =>
    match env.activeEditor with
    | none => .ok .vNull
    | some e =>
        let start := getField args "start"
        let stop := getField args "end"
        let pathV := pathOrNull e.path
        if truthy start || truthy stop then
          let s := if truthy start then start
            else .vObj [("row", .vNum 0), ("column", .vNum 0)]
          let en := if truthy stop then stop
            else .vObj [("row", .vNum e.lastBufferRow),
              ("column", .vNum (Int.ofNat (e.lineText e.lastBufferRow).length))]
          let range := Value.vArr [
            .vArr [getField s "row", getField s "column"],
            .vArr [getField en "row", getField en "column"]]
          .ok (.vObj [("content", .vStr (e.textInRange range)), ("path", pathV),
            ("range", .vObj [("start", s), ("end", en)])])
        else
          .ok (.vObj [("content", .vStr e.content), ("path", pathV)])

/-- `tools.OpenFile` (part_002 94-129). -/
def OpenFileDef (env : AtomEnv) : BuiltinTool where
  name := "OpenFile"
  description := "Open a file in editor. All positions are 0-indexed. Returns true on success. Creates new file if path doesn\x27t exist."
  inputSchema := .vObj [("type", .vStr "object"),
    ("properties", .vObj [
      ("path", .vObj [("type", .vStr "string"),
        ("description", .vStr "File path (absolute or relative to project root)")]),
      ("row", .vObj [("type", .vStr "number"),
        ("description", .vStr "Row to navigate to (0-indexed, optional)")]),
      ("column", .vObj [("type", .vStr "number"),
        ("description", .vStr "Column to navigate to (0-indexed, optional)")])]),
    ("required", .vArr [.vStr "path"])]
  annotations := .vObj [("readOnlyHint", .vBool false)]
  execute := fun args =>
    match getField args "path" with
    | .vStr _ =>
        match env.openOutcome with
        | .error m => .error m
        | .ok _ => .ok (.vObj [("opened", .vBool true)])
    | _ => .error "path is required"

/-- `tools.GetProjectPaths` (part_002 131-144). -/
def GetProjectPathsDef (env : AtomEnv) : BuiltinTool where
  name := "GetProjectPaths"
  description := "Get project root folders. Returns string[] of absolute paths. Empty array if no project open."
  inputSchema := emptyObjSchema
  annotations := .vObj [("readOnlyHint", .vBool true)]
  execute := fun _ => .ok (.vArr (env.projectPaths.map Value.vStr))

/-- `tools.SaveFile` (part_002 146-178). -/
def SaveFileDef (env : AtomEnv) : BuiltinTool where
  name := "SaveFile"
  description := "Save a file. Returns true on success, false if file not found or no editor. If path omitted, saves active editor."
  inputSchema := .vObj [("type", .vStr "object"),
    ("properties", .vObj [
      ("path", .vObj [("type", .vStr "string"),
        ("description", .vStr "File path to save (optional, defaults to active editor)")])]),
    ("required", .vArr [])]
  annotations := .vObj [("readOnlyHint", .vBool false)]
  execute := fun args =>
    let path := getField args "path"
    if truthy path then
      match env.editors.find? (fun e => valueBeq (pathValue e.path) path) with
      | none => .ok (.vObj [("saved", .vBool false)])
      | some e =>
          match e.saveOutcome with
          | .error m => .error m
          | .ok _ => .ok (.vObj [("saved", .vBool true)])
    else
      match env.activeEditor with
      | none => .ok (.vObj [("saved", .vBool false)])
      | some e =>
          match e.saveOutcome with
          | .error m => .error m
          | .ok _ => .ok (.vObj [("saved", .vBool true)])

/-- `tools.GetSelections` (part_002 180-206). -/
def GetSelectionsDef (env : AtomEnv) : BuiltinTool where
  name := "GetSelections"
  description := "Get all selections/cursors. Returns array of \x7btext: string, isEmpty: boolean, range: \x7bstart: \x7brow, column\x7d, end: \x7brow, column\x7d\x7d\x7d (0-indexed). First element is primary selection. Returns null if no editor."
  inputSchema := emptyObjSchema
  annotations := .vObj [("readOnlyHint", .vBool true)]
  execute := fun _ =>
    match env.activeEditor with
    | none => .ok .vNull
    | some e => .ok (.vArr (e.selections.map selectionValue))

/-- `tools.SetSelections` (part_002 208-267).  The buffer-range construction
feeds `setSelectedBufferRanges`, an editor effect; the TypeError raised on
entries lacking `start` is outside the modelled behaviour. -/
def SetSelectionsDef (env : AtomEnv) : BuiltinTool where
  name := "SetSelections"
  description := "Set selections/cursors in active editor. All positions are 0-indexed. If end equals start (or omitted), places cursor without selection. First selection becomes primary. Returns \x7bset: true, count: number\x7d on success, \x7bset: false\x7d if no editor."
  inputSchema := .vObj [("type", .vStr "object"),
    ("properties", .vObj [
      ("selections", .vObj [("type", .vStr "array"),
        ("description", .vStr "Array of selection ranges to set"),
        ("items", .vObj [("type", .vStr "object"),
          ("properties", .vObj [
            ("start", positionSchema "Start position (0-indexed)"),
            ("end", positionSchema "End position (0-indexed). Omit or set equal to start for cursor-only.")]),
          ("required", .vArr [.vStr "start"])]),
        ("minItems", .vNum 1)])]),
    ("required", .vArr [.vStr "selections"])]
  annotations := .vObj [("readOnlyHint", .vBool false)]
  execute := fun args =>
    match getField args "selections" with
    | .vArr sels =>
        if sels.length == 0 then
          .error "selections array is required and must not be empty"
        else
          match env.activeEditor with
          | none => .ok (.vObj [("set", .vBool false)])
          | some _ => .ok (.vObj [("set", .vBool true),
              ("count", .vNum (Int.ofNat sels.length))])
    | _ => .error "selections array is required and must not be empty"

/-- `tools.InsertText` (part_002 269-320). -/
def InsertTextDef (env : AtomEnv) : BuiltinTool where
  name := "InsertText"
  description := "Insert text into active editor. Without start/end: inserts at cursor or replaces selection. With start/end: replaces text in that range. Returns \x7binserted: true, oldText?\x7d or \x7binserted: false\x7d."
  inputSchema := .vObj [("type", .vStr "object"),
    ("properties", .vObj [
      ("text", .vObj [("type", .vStr "string"),
        ("description", .vStr "The text to insert")]),
      ("start", positionSchema "Start position (0-indexed). If omitted, inserts at cursor."),
      ("end", positionSchema "End position (0-indexed). Required if start is provided.")]),
    ("required", .vArr [.vStr "text"])]
  annotations := .vObj [("readOnlyHint", .vBool false)]
  execute := fun args =>
    match getField args "text" with
    | .vStr _ =>
        match env.activeEditor with
        | none => .ok (.vObj [("inserted", .vBool false)])
        | some e =>
            let start := getField args "start"
            let stop := getField args "end"
            if truthy start && truthy stop then
              let range := Value.vArr [
                .vArr [getField start "row", getField start "column"],
                .vArr [getField stop "row", getField stop "column"]]
              .ok (.vObj [("inserted", .vBool true),
                ("oldText", .vStr (e.textInRange range)),
                ("path", pathOrNull e.path)])
            else
              .ok (.vObj [("inserted", .vBool true), ("path", pathOrNull e.path)])
    | _ => .error "text is required"

/-- `tools.CloseFile` (part_002 322-364). -/
def CloseFileDef (env : AtomEnv) : BuiltinTool where
  name := "CloseFile"
  description := "Close an editor tab. Returns true on success, false if file not found. If path omitted, closes active editor. Unsaved changes are discarded unless save=true."
  inputSchema := .vObj [("type", .vStr "object"),
    ("properties", .vObj [
      ("path", .vObj [("type", .vStr "string"),
        ("description", .vStr "File path to close (optional, defaults to active editor)")]),
      ("save", .vObj [("type", .vStr "boolean"),
        ("description", .vStr "Save before closing if modified (default: false)")])]),
    ("required", .vArr [])]
  annotations := .vObj [("readOnlyHint", .vBool false), ("destructiveHint", .vBool true)]
  execute := fun args =>
    let path := getField args "path"
    let save := match getField args "save" with
      | .vUndefined => .vBool false
      | v => v
    let chosen : Option EditorState :=
      if truthy path then
        env.editors.find? (fun e => valueBeq (pathValue e.path) path)
      else env.activeEditor
    match chosen with
    | none => .ok (.vObj [("closed", .vBool false)])
    | some e =>
        if truthy save && e.modified then
          match e.saveOutcome with
          | .error m => .error m
          | .ok _ => .ok (.vObj [("closed", .vBool true)])
        else .ok (.vObj [("closed", .vBool true)])

/-- `tools.AddProjectPath` (part_002 366-386). -/
def AddProjectPathDef (_env : AtomEnv) : BuiltinTool where
  name := "AddProjectPath"
  description := "Add a folder to project roots without removing existing paths. Returns true on success, false if path invalid."
  inputSchema := .vObj [("type", .vStr "object"),
    ("properties", .vObj [
      ("path", .vObj [("type", .vStr "string"),
        ("description", .vStr "Absolute folder path to add")])]),
    ("required", .vArr [.vStr "path"])]
  annotations := .vObj [("readOnlyHint", .vBool false)]
  execute := fun args =>
    match getField args "path" with
    | .vStr _ => .ok (.vObj [("added", .vBool true)])
    | _ => .error "path is required"

/-- The `tools` record of part_002 (10-387) as an association list in
declaration order (`Object.values` iterates string keys in insertion
order). -/
def tools (env : AtomEnv) : List (String × BuiltinTool) :=
  [("GetActiveEditor", GetActiveEditorDef env),
   ("ReadText", ReadTextDef env),
   ("OpenFile", OpenFileDef env),
   ("GetProjectPaths", GetProjectPathsDef env),
   ("SaveFile", SaveFileDef env),
   ("GetSelections", GetSelectionsDef env),
   ("SetSelections", SetSelectionsDef env),
   ("InsertText", InsertTextDef env),
   ("CloseFile", CloseFileDef env),
   ("AddProjectPath", AddProjectPathDef env)]

/-- `getToolsList()` (part_002 396-405): public metadata of every builtin
tool. -/
def getToolsList (env : AtomEnv) : List ToolMeta :=
  (tools env).map (fun p =>
    ⟨p.2.name, .vStr p.2.description, p.2.inputSchema, p.2.annotations⟩)

/-- `executeTool(toolName, args)` (part_002 410-423): the builtin executor
of the newer snapshot.  Note: every non-throwing completion is reported with
`success: true`, with no special-casing of `false`/`null` returns.
`tools[toolName]` is a JS object lookup and consults the prototype chain:
for an `Object.prototype` property name the inherited member is found
(truthy, so `!tool` fails), `tool.execute` is `undefined`, and the call
throws inside the try, caught as `tool.execute is not a function`. -/
def executeTool (env : AtomEnv) (toolName : String) (args : Value) : Envelope :=
  match (tools env).lookup toolName with
  | none =>
      if protoKeys.contains toolName then
        ⟨false, none, some "tool.execute is not a function"⟩
      else ⟨false, none, some ("Unknown tool: " ++ toolName)⟩
  | some tool =>
      match tool.execute args with
      | .ok data => ⟨true, some data, none⟩
      | .error m => ⟨false, none, some m⟩

end ToolsV2

end PulsarMcp

namespace PulsarMcp

/-! ## src/unnamed/part_001 — the newer bridge: combined executor, MCP
protocol handlers, batching, endpoint -/

/-- The fallback condition of part_001 `executeTool` (line 54):
`!result.success && result.error === \`Unknown tool: ${toolName}\``. -/
def unknownCheck (r : Envelope) (toolName : String) : Bool :=
  !r.success && (r.error == some ("Unknown tool: " ++ toolName))

namespace BridgeV2

/-- `executeTool` (part_001 44-78): run the builtin executor first; only on
the exact unknown-tool outcome consult the external tool map.  Timing and
logging have no effect on the returned envelope. -/
def executeTool (env : AtomEnv) (exts : List (String × ExtTool))
    (toolName : String) (args : Value) : Envelope :=
  let result := ToolsV2.executeTool env toolName args
  if unknownCheck result toolName then
    match exts.lookup toolName with
    | some t => runExternalTool t args
    | none => result
  else result

/-- The external-tool entry pushed by `handleToolsList` (part_001 180-191):
`description || ""`, `inputSchema || {type:"object",properties:{},required:[]}`,
`annotations` passed through. -/
def extMeta (t : ExtTool) : ToolMeta :=
  ⟨t.name,
   if truthy t.description then t.description else .vStr "",
   if truthy t.inputSchema then t.inputSchema else emptyObjSchema,
   t.annotations⟩

/-- The tool list assembled by `handleToolsList` (part_001 175-193):
builtin metadata followed by every registered external tool. -/
def mcpToolsList (env : AtomEnv) (exts : List (String × ExtTool)) :
    List ToolMeta :=
  ToolsV2.getToolsList env ++ exts.map (fun p => extMeta p.2)

/-- Serialize tool metadata into the JSON-RPC result payload. -/
def metaToValue (m : ToolMeta) : Value :=
  .vObj [("name", .vStr m.name), ("description", m.description),
    ("inputSchema", m.inputSchema), ("annotations", m.annotations)]

/-- `handleToolsList(id)` (part_001 175-193). -/
def handleToolsList (env : AtomEnv) (exts : List (String × ExtTool))
    (id : Value) : Value :=
  jsonRpcResponse id (.vObj [("tools",
    .vArr ((mcpToolsList env exts).map metaToValue))])

/-- `handleToolsCall` of part_001 (199-229), whose executor is
`BridgeV2.executeTool`. -/
def handleToolsCall (env : AtomEnv) (exts : List (String × ExtTool))
    (id params : Value) : Except String Value :=
  handleToolsCallWith env.jsonStringify (executeTool env exts) id params

/-- part_001 line 20 (the lib/bridge.js snapshot uses "2024-11-05"). -/
def PROTOCOL_VERSION : String := "2025-11-25"

/-- Modelled from the spec / README: part_001 reads `name` and `version`
from `package.json`, which is not under src; the package is `pulsar-mcp`. -/
def SERVER_NAME : String := "pulsar-mcp"

/-- Modelled from the spec / README: the package version string read from
`package.json` (not under src). -/
def SERVER_VERSION : String := "1.0.0"

/-- A stored MCP session (part_001 148-153). -/
structure SessionRec where
  initialized : Bool
  protocolVersion : Value
  clientInfo : Value
  createdAt : Nat

/-- The bridge's mutable MCP state: the session map plus a fresh-id counter
modelling `crypto.randomUUID()` (an external randomness source; only
freshness of the generated id is relevant). -/
structure McpState where
  sessions : List (String × SessionRec)
  counter : Nat

/-- What a protocol handler hands back to the transport (part_001: the
`{response, sessionId?, statusCode?}` objects). -/
structure HandlerResult where
  response : Option Value
  sessionId : Option String
  statusCode : Option Nat

/-- `handleInitialize(id, params)` (part_001 146-170). -/
def handleInitialize (env : AtomEnv) (st : McpState) (id params : Value) :
    HandlerResult × McpState :=
  let sessionId := "session-" ++ toString st.counter
  let sess : SessionRec :=
    ⟨true,
     (if truthy (getField params "protocolVersion") then
        getField params "protocolVersion"
      else .vStr PROTOCOL_VERSION),
     getField params "clientInfo", env.now⟩
  (⟨some (jsonRpcResponse id (.vObj [
      ("protocolVersion", .vStr PROTOCOL_VERSION),
      ("capabilities", .vObj [("tools", .vObj [("listChanged", .vBool false)])]),
      ("serverInfo", .vObj [("name", .vStr SERVER_NAME),
        ("version", .vStr SERVER_VERSION)])])),
    some sessionId, none⟩,
   ⟨st.sessions ++ [(sessionId, sess)], st.counter + 1⟩)

/-- `const { jsonrpc, id, method, params = {} } = body` — the `params`
default of `handleMcpRequest`. -/
def paramsOf (body : Value) : Value :=
  match getField body "params" with
  | .vUndefined => .vObj []
  | v => v

/-- `handleMcpRequest(body, sessionId)` (part_001 234-271).  The
`sessionId` argument of the source is unused there and omitted.  The entry
destructure (line 235) throws when `body` is `null` (e.g. the request body
`null`, or a `null` batch element): the async handler then rejects, which
`.error` models; a throw escaping a dispatched `handleToolsCall` rejects
the same way.  No session state is mutated on either throw. -/
def handleMcpRequest (env : AtomEnv) (exts : List (String × ExtTool))
    (st : McpState) (body : Value) :
    (Except String HandlerResult) × McpState :=
  match destructureThrow body "jsonrpc" "body" with
  | some m => (.error m, st)
  | none =>
      if !(valueBeq (getField body "jsonrpc") (.vStr "2.0")) then
        (.ok ⟨some (jsonRpcError (getField body "id") (-32600)
          "Invalid Request: must be JSON-RPC 2.0"), none, none⟩, st)
      else
        match getField body "method" with
        | .vStr "initialize" =>
            (.ok (handleInitialize env st (getField body "id") (paramsOf body)).1,
              (handleInitialize env st (getField body "id") (paramsOf body)).2)
        | .vStr "notifications/initialized" => (.ok ⟨none, none, some 202⟩, st)
        | .vStr "tools/list" =>
            (.ok ⟨some (handleToolsList env exts (getField body "id")),
              none, none⟩, st)
        | .vStr "tools/call" =>
            (match handleToolsCall env exts (getField body "id") (paramsOf body) with
              | .error m => (.error m, st)
              | .ok v => (.ok ⟨some v, none, none⟩, st))
        | .vStr "ping" =>
            (.ok ⟨some (jsonRpcResponse (getField body "id") (.vObj [])),
              none, none⟩, st)
        | m => (.ok ⟨some (jsonRpcError (getField body "id") (-32601)
            ("Method not found: " ++ jsToString m)), none, none⟩, st)

/-- An HTTP response of the `/mcp` endpoint: status, optional JSON body,
optional `Mcp-Session-Id` header. -/
structure HttpOut where
  status : Nat
  body : Option Value
  sessionHeader : Option String

/-- Dispatch every batch element (part_001 290-292).  The source dispatches
through `Promise.all`; each handler's *response* is independent of the
shared session state (proved below as `handleMcpRequest_response_indep`),
so sequential state threading yields the same reply array.  Elements that
throw do so synchronously during `body.map`, before any asynchronous
suspension, so index order is rejection order. -/
def runBatch (env : AtomEnv) (exts : List (String × ExtTool)) :
    McpState → List Value → (List (Except String HandlerResult) × McpState)
  | st, [] => ([], st)
  | st, b :: rest =>
      ((handleMcpRequest env exts st b).1 ::
          (runBatch env exts (handleMcpRequest env exts st b).2 rest).1,
        (runBatch env exts (handleMcpRequest env exts st b).2 rest).2)

/-- The rejection `Promise.all` settles with, if any element's handler
threw: the first rejection. -/
def batchErr : List (Except String HandlerResult) → Option String
  | [] => none
  | .error m :: _ => some m
  | .ok _ :: rest => batchErr rest

/-- `results.filter(r => r.response !== null).map(r => r.response)` over
the settled handler results (only consulted when no element threw). -/
def batchResponses : List (Except String HandlerResult) → List Value
  | [] => []
  | .error _ :: rest => batchResponses rest
  | .ok h :: rest =>
      match h.response with
      | some v => v :: batchResponses rest
      | none => batchResponses rest

/-- The batch branch of `handleMcpEndpoint` (part_001 289-305): await the
joined dispatches (a rejection propagates out of the endpoint), then
collect the non-null responses in input order; 202 with empty body when
none remain. -/
def handleMcpBatch (env : AtomEnv) (exts : List (String × ExtTool))
    (st : McpState) (items : List Value) :
    (Except String HttpOut) × McpState :=
  match batchErr (runBatch env exts st items).1 with
  | some m => (.error m, (runBatch env exts st items).2)
  | none =>
      if (batchResponses (runBatch env exts st items).1).isEmpty then
        (.ok ⟨202, none, none⟩, (runBatch env exts st items).2)
      else
        (.ok ⟨200, some (.vArr (batchResponses (runBatch env exts st items).1)),
          none⟩, (runBatch env exts st items).2)

/-- `parseBody(req)` (part_001 87-102, identical in lib/bridge.js 232-247):
an empty (falsy) body string resolves to `{}` without parsing; otherwise
`JSON.parse` — an external builtin, modelled by the oracle `jsonParse` —
either yields a value or the promise rejects. -/
def parseBody (jsonParse : String → Option Value) (body : String) :
    Except String Value :=
  if body == "" then .ok (.vObj [])
  else
    match jsonParse body with
    | some v => .ok v
    | none => .error "Invalid JSON body"

/-- `handleMcpEndpoint(req, res)` (part_001 276-324) given the outcome of
`parseBody`: HTTP 400 with code -32700 on a parse failure, the batch branch for arrays,
otherwise a single dispatch (202 empty for a null response, else 200 with
the response and the `Mcp-Session-Id` header when a session was created).
A throw inside a dispatch is not caught here and escapes as `.error`. -/
def handleMcpEndpoint (env : AtomEnv) (exts : List (String × ExtTool))
    (st : McpState) (parsed : Except String Value) :
    (Except String HttpOut) × McpState :=
  match parsed with
  | .error _ =>
      (.ok ⟨400, some (jsonRpcError .vNull (-32700) "Parse error: invalid JSON"),
        none⟩, st)
  | .ok (.vArr items) => handleMcpBatch env exts st items
  | .ok body =>
      match (handleMcpRequest env exts st body).1 with
      | .error m => (.error m, (handleMcpRequest env exts st body).2)
      | .ok r =>
          match r.response with
          | none => (.ok ⟨202, none, none⟩, (handleMcpRequest env exts st body).2)
          | some resp =>
              (.ok ⟨200, some resp, r.sessionId⟩,
                (handleMcpRequest env exts st body).2)

end BridgeV2

end PulsarMcp

namespace PulsarMcp

/-! ## lib/server.js — the stdio relay process.

The loopback HTTP interaction (`fetch`) with the bridge is an external
collaborator from the relay's point of view: it is modelled by the oracle
fields of `RelayEnv`. -/

/-- What the relay observes of one HTTP response: `response.ok` and the
parsed JSON body. -/
structure HttpResp where
  ok : Bool
  body : Value

/-- The relay's environment: bridge host/port configuration (from the
`PULSAR_BRIDGE_HOST` / `PULSAR_BRIDGE_PORT` environment variables or their
defaults), the health-probe outcome, the `GET /tools` response, the
`POST /tools/:name` responder, and the `JSON.stringify` builtin. -/
structure RelayEnv where
  host : String
  port : Nat
  health : Bool
  toolsResp : HttpResp
  callResp : String → Value → HttpResp
  stringify : Value → String

/-- A JSON-RPC-level error thrown inside the relay: the handler throws
either plain `{code, message}` objects or an `Error` (whose `code` is
absent). -/
structure RpcErrObj where
  code : Option Int
  message : String

namespace Server

/-- The fixed bridge-unreachable message (server.js 91-97 and 108-115). -/
def bridgeUnavailableMsg (env : RelayEnv) : String :=
  "Pulsar bridge not available at http://" ++ env.host ++ ":" ++
    toString env.port ++
    ". Make sure Pulsar is running with the pulsar-mcp package activated."

/-- `callBridge(toolName, args)` (server.js 23-39): POST the arguments to
the bridge's REST route; a non-2xx status or `success: false` body raises
an `Error` carrying `result.error || "Tool call failed: <name>"`. -/
def callBridge (env : RelayEnv) (toolName : String) (args : Value) :
    Except RpcErrObj Value :=
  if !(env.callResp toolName args).ok ||
      !(truthy (getField (env.callResp toolName args).body "success")) then
    .error ⟨none,
      if truthy (getField (env.callResp toolName args).body "error") then
        jsToString (getField (env.callResp toolName args).body "error")
      else "Tool call failed: " ++ toolName⟩
  else .ok (getField (env.callResp toolName args).body "data")

/-- `fetchToolsFromBridge()` (server.js 56-63): `data.tools || []`. -/
def fetchToolsFromBridge (env : RelayEnv) : Except RpcErrObj Value :=
  if !env.toolsResp.ok then
    .error ⟨none, "Failed to fetch tools from bridge"⟩
  else if truthy (getField env.toolsResp.body "tools") then
    .ok (getField env.toolsResp.body "tools")
  else .ok (.vArr [])

/-- `handleRequest(req)` (server.js 75-126). -/
def handleRequest (env : RelayEnv) (req : Value) : Except RpcErrObj Value :=
  match getField req "method" with
  | .vStr "initialize" =>
      .ok (.vObj [("protocolVersion", .vStr "2024-11-05"),
        ("capabilities", .vObj [("tools", .vObj [])]),
        ("serverInfo", .vObj [("name", .vStr "pulsar"),
          ("version", .vStr "0.1.0")])])
  | .vStr "tools/list" =>
      if !env.health then .error ⟨some (-32603), bridgeUnavailableMsg env⟩
      else
        match fetchToolsFromBridge env with
        | .error e => .error e
        | .ok ts => .ok (.vObj [("tools", ts)])
  | .vStr "tools/call" =>
      if !env.health then .error ⟨some (-32603), bridgeUnavailableMsg env⟩
      else
        match callBridge env
            (jsToString (getField (getField req "params") "name"))
            (if truthy (getField (getField req "params") "arguments") then
              getField (getField req "params") "arguments"
            else .vObj []) with
        | .error e => .error e
        | .ok result =>
            .ok (.vObj [("content", .vArr [.vObj [("type", .vStr "text"),
              ("text", .vStr (env.stringify result))]])])
  | m => .error ⟨some (-32601), "Method not found: " ++ jsToString m⟩

/-- `e.code || -32603` of the line handler's catch (server.js 150). -/
def errCodeOr (e : RpcErrObj) : Int :=
  match e.code with
  | some c => if c == 0 then -32603 else c
  | none => -32603

/-- `e.message || String(e)` (server.js 150); the thrown objects of this
file always carry a non-empty message, the `String(e)` fallback is the JS
object coercion. -/
def errMsgOr (e : RpcErrObj) : String :=
  if e.message == "" then "[object Object]" else e.message

/-- The `rl.on("line")` handler (server.js 131-153), given the outcome of
`JSON.parse(line)`: a parse failure emits a -32700 response with null id; a
request whose `id` is `undefined` is ignored (no output); otherwise one
response object is written per line. -/
def relayOnLine (env : RelayEnv) (parsed : Except Unit Value) : List Value :=
  match parsed with
  | .error _ =>
      [.vObj [("jsonrpc", .vStr "2.0"), ("id", .vNull),
        ("error", .vObj [("code", .vNum (-32700)),
          ("message", .vStr "Parse error")])]]
  | .ok req =>
      if isUndefinedV (getField req "id") then []
      else
        match handleRequest env req with
        | .ok result =>
            [.vObj [("jsonrpc", .vStr "2.0"), ("id", getField req "id"),
              ("result", result)]]
        | .error e =>
            [.vObj [("jsonrpc", .vStr "2.0"), ("id", getField req "id"),
              ("error", .vObj [("code", .vNum (errCodeOr e)),
                ("message", .vStr (errMsgOr e))])]]

end Server

end PulsarMcp

namespace PulsarMcp

/-! ## Shared concrete instances for witnesses and counterexamples -/

/-- A concrete editor host with no active editor (the "no active editor"
situation the spec's tools are documented to signal with `null`/`false`). -/
def env0 : AtomEnv :=
  { activeEditor := none, editors := [], projectPaths := [],
    openOutcome := .ok (), now := 0, jsonStringify := fun _ => "" }

/-- A concrete external tool registered under the builtin name
`InsertText` (a name collision). -/
def extInsertTextTool : ExtTool :=
  ⟨"InsertText", .vUndefined, .vUndefined, .vUndefined,
    fun _ => .ok (.vStr "hi")⟩

/-- A concrete external tool under a fresh name, in the shape of the
README's `mcp-tools` service example. -/
def extCustomTool : ExtTool :=
  ⟨"MyCustomTool", .vStr "Description for the AI", .vUndefined, .vUndefined,
    fun _ => .ok (.vObj [("result", .vStr "data")])⟩

/-! ## C1 -/

/-- C1 (counterexample): the claim says every executor reports a
non-throwing `false`/`null` return as `success: false`.  In the builtin
executor of the newer snapshot (part_002 `executeTool`, cited by the
claim), `GetActiveEditor` with no active editor completes without throwing
and returns `null`, yet the envelope is `{success: true, data: null}`. -/
theorem c1_counterexample :
    (ToolsV2.GetActiveEditorDef env0).execute (.vObj []) = .ok .vNull
    ∧ ToolsV2.executeTool env0 "GetActiveEditor" (.vObj []) =
        ⟨true, some .vNull, none⟩ :=
  ⟨rfl, rfl⟩

/-- C1 (amended): the `success = (result !== false && result !== null)`
rule holds for the registry executor `executeFromRegistry`
(lib/registry.js); the builtin executor `executeTool` of tools.js /
part_002 instead reports `success: true` for every non-throwing return,
including `false` and `null`. -/
theorem c1_amended_success_rule :
    (∀ (registry : List (String × Tool)) (toolName : String) (args : Value)
        (tool : Tool) (r : Value),
      registry.lookup toolName = some tool →
      firstValidationError tool.validate args = none →
      tool.execute args = .ok r →
      executeFromRegistry registry toolName args =
        ⟨!(isFalseV r) && !(isNullV r), some (tool.format r args), none⟩)
    ∧ (∀ (env : AtomEnv) (toolName : String) (args : Value)
        (tool : BuiltinTool) (r : Value),
      (ToolsV2.tools env).lookup toolName = some tool →
      tool.execute args = .ok r →
      ToolsV2.executeTool env toolName args = ⟨true, some r, none⟩) := by
  constructor
  · intro registry toolName args tool r hl hv he
    simp [executeFromRegistry, hl, hv, he]
  · intro env toolName args tool r hl he
    simp [ToolsV2.executeTool, hl, he]

/-- C1 (witness): `executeFromRegistry` on the bridge registry's
`GetActiveEditor` with no active editor — the procedure returns `null` and
the envelope's `success` is `false`. -/
theorem c1_amended_success_rule_witness :
    executeFromRegistry (BridgeLib.toolRegistry env0) "GetActiveEditor"
      (.vObj []) = ⟨false, some .vNull, none⟩ := by
  have h := c1_amended_success_rule.1 (BridgeLib.toolRegistry env0)
    "GetActiveEditor" (.vObj []) (BridgeLib.GetActiveEditorTool env0) .vNull
    rfl rfl rfl
  simpa using h

/-! ## C2 -/

/-- C2 (counterexample): the claim says `data` is present iff `success` and
`error` is present iff failure, on every path.  On the falsy-sentinel path
of `executeFromRegistry` (registry.js 59, cited by the claim) the envelope
is `{success: false, data: null}`: `data` present and `error` absent while
`success` is false. -/
theorem c2_counterexample :
    (executeFromRegistry (BridgeLib.toolRegistry env0) "GetActiveEditor"
      (.vObj [])).success = false
    ∧ (executeFromRegistry (BridgeLib.toolRegistry env0) "GetActiveEditor"
      (.vObj [])).data = some .vNull
    ∧ (executeFromRegistry (BridgeLib.toolRegistry env0) "GetActiveEditor"
      (.vObj [])).error = none :=
  ⟨rfl, rfl, rfl⟩

/-- C2 (amended): every envelope from `executeFromRegistry` has one of
three shapes — success with `data` and no `error`, failure with `error` and
no `data`, or (falsy-sentinel completion only) failure with `data` and no
`error`; the combined executor of the newer snapshot
(`BridgeV2.executeTool`, also cited by the claim) always produces one of
the first two shapes. -/
theorem c2_amended_envelope_shape :
    (∀ (registry : List (String × Tool)) (toolName : String) (args : Value),
      ((executeFromRegistry registry toolName args).success = true
        ∧ (executeFromRegistry registry toolName args).data.isSome = true
        ∧ (executeFromRegistry registry toolName args).error = none)
      ∨ ((executeFromRegistry registry toolName args).success = false
        ∧ (executeFromRegistry registry toolName args).data = none
        ∧ (executeFromRegistry registry toolName args).error.isSome = true)
      ∨ ((executeFromRegistry registry toolName args).success = false
        ∧ (executeFromRegistry registry toolName args).data.isSome = true
        ∧ (executeFromRegistry registry toolName args).error = none))
    ∧ (∀ (env : AtomEnv) (exts : List (String × ExtTool)) (toolName : String)
        (args : Value),
      ((BridgeV2.executeTool env exts toolName args).success = true
        ∧ (BridgeV2.executeTool env exts toolName args).data.isSome = true
        ∧ (BridgeV2.executeTool env exts toolName args).error = none)
      ∨ ((BridgeV2.executeTool env exts toolName args).success = false
        ∧ (BridgeV2.executeTool env exts toolName args).data = none
        ∧ (BridgeV2.executeTool env exts toolName args).error.isSome = true)) := by
  constructor
  · intro registry toolName args
    simp only [executeFromRegistry]
    split
    · right; left; simp
    · split
      · right; left; simp
      · split
        · right; left; simp
        · rename_i r heq
          rcases Bool.eq_false_or_eq_true (!(isFalseV r) && !(isNullV r)) with hb | hb
          · left; simp [hb]
          · right; right; simp [hb]
  · intro env exts toolName args
    have hbase : ∀ (e : Envelope),
        (e = ⟨false, none, some ("Unknown tool: " ++ toolName)⟩
          ∨ (∃ d, e = ⟨true, some d, none⟩) ∨ (∃ m, e = ⟨false, none, some m⟩)) →
        ((e.success = true ∧ e.data.isSome = true ∧ e.error = none)
          ∨ (e.success = false ∧ e.data = none ∧ e.error.isSome = true)) := by
      rintro e (rfl | ⟨d, rfl⟩ | ⟨m, rfl⟩)
      · right; simp
      · left; simp
      · right; simp
    apply hbase
    simp only [BridgeV2.executeTool]
    split
    · split
      · rename_i t _
        simp only [runExternalTool]
        split
        · right; left; exact ⟨_, rfl⟩
        · right; right; exact ⟨_, rfl⟩
      · simp only [ToolsV2.executeTool]
        split
        · split
          · right; right; exact ⟨_, rfl⟩
          · left; rfl
        · split
          · right; left; exact ⟨_, rfl⟩
          · right; right; exact ⟨_, rfl⟩
    · simp only [ToolsV2.executeTool]
      split
      · split
        · right; right; exact ⟨_, rfl⟩
        · left; rfl
      · split
        · right; left; exact ⟨_, rfl⟩
        · right; right; exact ⟨_, rfl⟩

/-! ## C3 -/

/-- C3: the combined executor of part_001 consults the external tool map
exactly when the builtin path produced the specific not-found outcome
(`!result.success && result.error === "Unknown tool: <name>"`); any other
builtin result is returned unchanged regardless of the external map, and
when the unknown-tool outcome occurs with no matching external tool the
builtin result is also returned unchanged. -/
theorem c3_builtin_precedence :
    (∀ (env : AtomEnv) (exts : List (String × ExtTool)) (toolName : String)
        (args : Value),
      unknownCheck (ToolsV2.executeTool env toolName args) toolName = false →
      BridgeV2.executeTool env exts toolName args =
        ToolsV2.executeTool env toolName args)
    ∧ (∀ (env : AtomEnv) (exts : List (String × ExtTool)) (toolName : String)
        (args : Value) (t : ExtTool),
      unknownCheck (ToolsV2.executeTool env toolName args) toolName = true →
      exts.lookup toolName = some t →
      BridgeV2.executeTool env exts toolName args = runExternalTool t args)
    ∧ (∀ (env : AtomEnv) (exts : List (String × ExtTool)) (toolName : String)
        (args : Value),
      unknownCheck (ToolsV2.executeTool env toolName args) toolName = true →
      exts.lookup toolName = none →
      BridgeV2.executeTool env exts toolName args =
        ToolsV2.executeTool env toolName args) := by
  refine ⟨?_, ?_, ?_⟩
  · intro env exts toolName args h
    simp [BridgeV2.executeTool, h]
  · intro env exts toolName args t h hl
    simp [BridgeV2.executeTool, h, hl]
  · intro env exts toolName args h hl
    simp [BridgeV2.executeTool, h, hl]

/-- C3 (witness): with an external tool registered under the colliding name
`InsertText`, a builtin validation-style failure (`text is required`) is
returned unchanged, while an external tool under the fresh name
`MyCustomTool` is reached after the builtin miss. -/
theorem c3_builtin_precedence_witness :
    BridgeV2.executeTool env0 [("InsertText", extInsertTextTool)] "InsertText"
      (.vObj []) = ⟨false, none, some "text is required"⟩
    ∧ BridgeV2.executeTool env0 [("MyCustomTool", extCustomTool)] "MyCustomTool"
      (.vObj []) = ⟨true, some (.vObj [("result", .vStr "data")]), none⟩ := by
  constructor
  · have h := c3_builtin_precedence.1 env0 [("InsertText", extInsertTextTool)]
      "InsertText" (.vObj []) rfl
    exact h.trans rfl
  · have h := c3_builtin_precedence.2.1 env0 [("MyCustomTool", extCustomTool)]
      "MyCustomTool" (.vObj []) extCustomTool rfl rfl
    exact h.trans rfl

/-! ## C8 -/

/-- C8 (counterexample): the claim says every name absent from both
registries yields `{success: false, error: "Unknown tool: <name>"}`.
At `toString` (in neither registry) the JS object lookup `tools[toolName]`
finds the inherited `Object.prototype.toString`, so `!tool` fails,
`tool.execute(args)` throws inside the try, and the envelope error is
`tool.execute is not a function` — never the claimed unknown-tool
envelope (and part_001's fallback does not fire on that error string). -/
theorem c8_counterexample :
    BridgeV2.executeTool env0 [] "toString" (.vObj []) =
      ⟨false, none, some "tool.execute is not a function"⟩
    ∧ BridgeV2.executeTool env0 [] "toString" (.vObj []) ≠
      ⟨false, none, some "Unknown tool: toString"⟩ :=
  ⟨rfl, fun h => absurd (Option.some.inj (congrArg Envelope.error h))
    (by decide)⟩

/-- C8 (amended): a tool name present in neither the builtin registry nor
the external tool map, and not an `Object.prototype` property name, yields
`{success: false, error: "Unknown tool: <name>"}` from the combined
executor; for an `Object.prototype` property name the builtin object
lookup finds the inherited member and the call fails with the envelope
error `tool.execute is not a function` instead, regardless of the external
map. -/
theorem c8_amended_unknown_tool :
    (∀ (env : AtomEnv) (exts : List (String × ExtTool)) (toolName : String)
        (args : Value),
      (ToolsV2.tools env).lookup toolName = none →
      exts.lookup toolName = none →
      protoKeys.contains toolName = false →
      BridgeV2.executeTool env exts toolName args =
        ⟨false, none, some ("Unknown tool: " ++ toolName)⟩)
    ∧ (∀ (env : AtomEnv) (exts : List (String × ExtTool)) (toolName : String)
        (args : Value),
      protoKeys.contains toolName = true →
      BridgeV2.executeTool env exts toolName args =
        ⟨false, none, some "tool.execute is not a function"⟩) := by
  constructor
  · intro env exts toolName args hb hp he
    have hres : ToolsV2.executeTool env toolName args =
        ⟨false, none, some ("Unknown tool: " ++ toolName)⟩ := by
      simp only [ToolsV2.executeTool, hb, he]
      simp
    have hchk : unknownCheck (ToolsV2.executeTool env toolName args) toolName
        = true := by
      rw [hres]; simp [unknownCheck]
    rw [BridgeV2.executeTool]
    simp [hchk, hp, hres]
  · intro env exts toolName args hc
    have hm : toolName ∈ protoKeys := by simpa using hc
    fin_cases hm <;> rfl

/-- C8 (witness): the name `NoSuchTool` is in neither registry and is not
an `Object.prototype` property. -/
theorem c8_amended_unknown_tool_witness :
    BridgeV2.executeTool env0 [] "NoSuchTool" (.vObj []) =
      ⟨false, none, some "Unknown tool: NoSuchTool"⟩ := by
  have h := c8_amended_unknown_tool.1 env0 [] "NoSuchTool" (.vObj [])
    rfl rfl rfl
  exact h.trans rfl

end PulsarMcp

namespace PulsarMcp

/-! ## C5 -/

/-- C5: `tools/list` is the builtin metadata followed by every registered
external tool, so its length is the builtin count (10) plus the external
count; external entries default a missing `description` to `""` and a
missing `inputSchema` to the empty object schema; the builtin prefix is the
same for every external map (so registering or removing external tools
never affects it). -/
theorem c5_tools_list :
    ∀ (env : AtomEnv) (exts : List (String × ExtTool)),
    (BridgeV2.mcpToolsList env exts).length =
        (ToolsV2.getToolsList env).length + exts.length
    ∧ (BridgeV2.mcpToolsList env exts).take (ToolsV2.getToolsList env).length =
        ToolsV2.getToolsList env
    ∧ (BridgeV2.mcpToolsList env exts).drop (ToolsV2.getToolsList env).length =
        exts.map (fun p => BridgeV2.extMeta p.2)
    ∧ (ToolsV2.getToolsList env).length = 10
    ∧ (∀ t : ExtTool,
        (BridgeV2.extMeta { t with description := .vUndefined }).description =
          .vStr ""
        ∧ (BridgeV2.extMeta { t with inputSchema := .vUndefined }).inputSchema =
          emptyObjSchema)
    ∧ BridgeV2.handleToolsList env exts (.vNum 1) =
        jsonRpcResponse (.vNum 1) (.vObj [("tools",
          .vArr ((BridgeV2.mcpToolsList env exts).map BridgeV2.metaToValue))]) := by
  intro env exts
  refine ⟨?_, ?_, ?_, rfl, ?_, rfl⟩
  · simp [BridgeV2.mcpToolsList]
  · simp [BridgeV2.mcpToolsList, List.take_left]
  · simp [BridgeV2.mcpToolsList, List.drop_left]
  · intro t
    exact ⟨rfl, rfl⟩

/-! ## C6 -/

end PulsarMcp

namespace PulsarMcp

/-! ## C4 -/

/-- C7: `findAvailablePort` probes sequentially from the start port and
returns the first available candidate among the first `maxAttempts`; when
none of the `maxAttempts` consecutive ports is available it throws the
error naming both the attempt count and the starting port. -/
theorem c7_find_available_port :
    (∀ (avail : Nat → Bool) (startPort maxAttempts j : Nat),
      j < maxAttempts → avail (startPort + j) = true →
      (∀ k, k < j → avail (startPort + k) = false) →
      findAvailablePort avail startPort maxAttempts = .ok (startPort + j))
    ∧ (∀ (avail : Nat → Bool) (startPort maxAttempts : Nat),
      (∀ k, k < maxAttempts → avail (startPort + k) = false) →
      findAvailablePort avail startPort maxAttempts =
        .error ("Could not find available port after " ++ toString maxAttempts
          ++ " attempts starting from " ++ toString startPort)) := by
  constructor
  · intro avail s m j hj hav hmin
    exact findAvailablePortGo_ok avail s m m s j hj hav hmin
  · intro avail s m hall
    exact findAvailablePortGo_exhaust avail s m m s hall

/-- C7 (witness): ports 3000-3002 occupied, 3003 free, five attempts
allowed — 3003 is returned; with only three attempts the descriptive error
names the attempt count and the start port. -/
theorem c7_find_available_port_witness :
    findAvailablePort (fun p => decide (3003 ≤ p)) 3000 5 = .ok 3003
    ∧ findAvailablePort (fun p => decide (3003 ≤ p)) 3000 3 =
        .error "Could not find available port after 3 attempts starting from 3000" := by
  constructor
  · have h := c7_find_available_port.1 (fun p => decide (3003 ≤ p)) 3000 5 3
      (by omega) (by decide) (by decide)
    simpa using h
  · have h := c7_find_available_port.2 (fun p => decide (3003 ≤ p)) 3000 3
      (by decide)
    exact h.trans (by rfl)

/-! ## C9 -/

/-- C9: a relay stdin line that parses as JSON but has no `id` field
produces no output at all, whatever its method and whatever the bridge
would answer. -/
theorem c9_relay_ignores_id_less :
    ∀ (env : RelayEnv) (req : Value),
    getField req "id" = .vUndefined →
    Server.relayOnLine env (.ok req) = [] := by
  intro env req h
  simp [Server.relayOnLine, h, isUndefinedV]

/-- C9 (witness): a `tools/call` request without `id`, against an
unreachable bridge, still produces no output. -/
theorem c9_relay_ignores_id_less_witness :
    Server.relayOnLine
      ⟨"127.0.0.1", 3000, false, ⟨false, .vObj []⟩,
        fun _ _ => ⟨false, .vObj []⟩, fun _ => ""⟩
      (.ok (.vObj [("jsonrpc", .vStr "2.0"), ("method", .vStr "tools/call")]))
      = [] :=
  c9_relay_ignores_id_less _ _ rfl

/-! ## C10 -/

/-- C10: an empty request body parses to `{}` (not a failure), so the
endpoint answers HTTP 200 with JSON-RPC error -32600 (the `jsonrpc` marker
is missing from `{}`), whereas a non-empty body that `JSON.parse` rejects
yields HTTP 400 with -32700. -/
theorem c10_empty_body :
    (∀ (jsonParse : String → Option Value),
      BridgeV2.parseBody jsonParse "" = .ok (.vObj []))
    ∧ (∀ (env : AtomEnv) (exts : List (String × ExtTool))
        (st : BridgeV2.McpState) (jsonParse : String → Option Value),
      (BridgeV2.handleMcpEndpoint env exts st
          (BridgeV2.parseBody jsonParse "")).1 =
        .ok ⟨200, some (jsonRpcError .vUndefined (-32600)
          "Invalid Request: must be JSON-RPC 2.0"), none⟩)
    ∧ (∀ (env : AtomEnv) (exts : List (String × ExtTool))
        (st : BridgeV2.McpState) (jsonParse : String → Option Value)
        (body : String),
      body ≠ "" → jsonParse body = none →
      (BridgeV2.handleMcpEndpoint env exts st
          (BridgeV2.parseBody jsonParse body)).1 =
        .ok ⟨400, some (jsonRpcError .vNull (-32700) "Parse error: invalid JSON"),
          none⟩) := by
  refine ⟨?_, ?_, ?_⟩
  · intro jsonParse
    rfl
  · intro env exts st jsonParse
    rfl
  · intro env exts st jsonParse body hne hp
    have hparse : BridgeV2.parseBody jsonParse body = .error "Invalid JSON body" := by
      simp [BridgeV2.parseBody, hne, hp]
    rw [hparse]
    rfl

/-- C10 (witness): the body `"x"` with a rejecting parse oracle takes the
path with HTTP 400 and code -32700. -/
theorem c10_empty_body_witness :
    (BridgeV2.handleMcpEndpoint env0 [] ⟨[], 0⟩
        (BridgeV2.parseBody (fun _ => none) "x")).1 =
      .ok ⟨400, some (jsonRpcError .vNull (-32700) "Parse error: invalid JSON"),
        none⟩ :=
  c10_empty_body.2.2 env0 [] ⟨[], 0⟩ (fun _ => none) "x" (by decide) rfl

end PulsarMcp
